import Mathlib

/-
Verification of the Active Ageing evaluation dashboard's data-transformation
core (src/app.py) against its design specification.

Modelling conventions (shallow embedding of the pandas code):
* A DataFrame is a `Frame`: a schema (list of column names) plus a list of
  `Row`s.  A `Row` carries the eight demographic dimensions, the scalar
  response fields and the binary indicator columns that the claims touch.
* A missing cell (pandas NaN) is `none`.  `Series.isin` on a NaN cell yields
  `False`, which `optMem` reproduces.
* Exact rational arithmetic (`ℚ`) stands in for float arithmetic; float NaN
  produced by aggregating an empty selection is modelled explicitly with
  `Option ℚ` (`none`), and comparisons against NaN are `false`, as in IEEE
  semantics (`optLt`).
* A Python `KeyError` (crashing dict subscript) is modelled by an
  `Option`-valued function returning `none`.
-/

/-- Row of the survey table.  `ind` is the assoc-list of the numeric binary
indicator columns (a column absent from the list is a missing cell). -/
structure Row where
  country : Option String
  region : Option String
  partner : Option String
  ageRange : Option String
  gender : Option String
  newClient : Option String
  duration : Option String
  victim : Option String
  rating : Option ℚ
  health : Option String
  freq : Option String
  ind : List (String × ℚ)
deriving DecidableEq

/-- Row with every cell missing. -/
def blankRow : Row :=
  ⟨none, none, none, none, none, none, none, none, none, none, none, []⟩

/-- Value of indicator column `c` in row `r` (missing if absent). -/
def Row.indVal (r : Row) (c : String) : Option ℚ :=
  (r.ind.find? (fun p => p.1 == c)).map Prod.snd

/-- DataFrame: schema (column names) and rows. -/
structure Frame where
  cols : List String
  rows : List Row
deriving DecidableEq

/-- Name of the program-duration column in the source table. -/
def durationColName : String :=
  "How long does a client receive services funded by World Jewish Relief?"

/-- Model of `Series.isin(sel)` at one cell: a missing cell is never a member. -/
def optMem (v : Option String) (sel : List String) : Bool :=
  match v with
  | some s => sel.contains s
  | none => false

/-- One step of `filter_dataframe` (src/app.py:100-129): apply the inclusion
list `sel` on dimension `cn` when the list is non-empty and the column is in
the schema, else leave the frame unchanged. -/
def colFilter (schema : List String) (cn : String) (sel : List String)
    (get : Row → Option String) (df : Frame) : Frame :=
  if !sel.isEmpty && schema.contains cn then
    { df with rows := df.rows.filter (fun r => optMem (get r) sel) }
  else df

/-- Embedding of `filter_dataframe(df, country, region, partner, age_range,
gender, new_client, duration, victim_status)` (src/app.py:100-129): the eight
inclusion-list filters applied in source order, every guard consulting the
schema of the original frame, exactly as the Python guards consult
`df.columns`. -/
def filter_dataframe (df : Frame) (country region partner ageRange gender
    newClient duration victimStatus : List String) : Frame :=
  colFilter df.cols "client_victim_of_nazism_status" victimStatus Row.victim
    (colFilter df.cols durationColName duration Row.duration
      (colFilter df.cols "client_new" newClient Row.newClient
        (colFilter df.cols "client_gender" gender Row.gender
          (colFilter df.cols "client_age_range" ageRange Row.ageRange
            (colFilter df.cols "Partner" partner Row.partner
              (colFilter df.cols "region" region Row.region
                (colFilter df.cols "country" country Row.country df)))))))

/-- Per-row acceptance of one dimension: pass when the filter for that
dimension is inactive (empty list or column not in the schema), else pass when
the cell is a member of the inclusion list. -/
def dimPass (schema : List String) (cn : String) (sel : List String)
    (get : Row → Option String) (r : Row) : Bool :=
  if !sel.isEmpty && schema.contains cn then optMem (get r) sel else true

theorem colFilter_cols (schema : List String) (cn : String) (sel : List String)
    (get : Row → Option String) (df : Frame) :
    (colFilter schema cn sel get df).cols = df.cols := by
  unfold colFilter
  split <;> rfl

theorem colFilter_rows (schema : List String) (cn : String) (sel : List String)
    (get : Row → Option String) (df : Frame) :
    (colFilter schema cn sel get df).rows = df.rows.filter (dimPass schema cn sel get) := by
  unfold colFilter dimPass
  by_cases h : (!sel.isEmpty && schema.contains cn) = true
  · simp only [h, if_true]
  · simp only [h, if_false, Bool.false_eq_true, List.filter_true]

/-- Conjunction of the eight per-dimension acceptances, grouped the way the
sequential filters compose. -/
def fullPass (schema : List String) (country region partner ageRange gender
    newClient duration victimStatus : List String) (r : Row) : Bool :=
  dimPass schema "client_victim_of_nazism_status" victimStatus Row.victim r &&
    (dimPass schema durationColName duration Row.duration r &&
      (dimPass schema "client_new" newClient Row.newClient r &&
        (dimPass schema "client_gender" gender Row.gender r &&
          (dimPass schema "client_age_range" ageRange Row.ageRange r &&
            (dimPass schema "Partner" partner Row.partner r &&
              (dimPass schema "region" region Row.region r &&
                dimPass schema "country" country Row.country r))))))

theorem filter_dataframe_cols (df : Frame) (c r p a g n d v : List String) :
    (filter_dataframe df c r p a g n d v).cols = df.cols := by
  simp only [filter_dataframe, colFilter_cols]

theorem filter_dataframe_rows (df : Frame) (c r p a g n d v : List String) :
    (filter_dataframe df c r p a g n d v).rows
      = df.rows.filter (fullPass df.cols c r p a g n d v) := by
  simp only [filter_dataframe, colFilter_rows, List.filter_filter]
  rfl

theorem frame_ext (F G : Frame) (hc : F.cols = G.cols) (hr : F.rows = G.rows) :
    F = G := by
  cases F; cases G; simp_all

/-- Claim C4.  A dimension with an empty criteria list imposes no restriction:
its per-row acceptance is `true` for every record and its filter step is the
identity; in particular `filter_dataframe` with all eight lists empty returns
the full input table. -/
theorem filter_empty_lists_no_restriction :
    (∀ schema cn get r, dimPass schema cn ([] : List String) get r = true) ∧
    (∀ schema cn get df, colFilter schema cn ([] : List String) get df = df) ∧
    (∀ df : Frame, filter_dataframe df [] [] [] [] [] [] [] [] = df) := by
  refine ⟨fun schema cn get r => rfl, fun schema cn get df => rfl, fun df => rfl⟩

/-- Claim C8.  Filtering is idempotent — filtering twice with the same criteria
equals filtering once — and the filtered rows are a sublist (hence a subset,
never a superset) of the input rows. -/
theorem filter_idempotent_and_sublist (df : Frame)
    (c r p a g n d v : List String) :
    filter_dataframe (filter_dataframe df c r p a g n d v) c r p a g n d v
        = filter_dataframe df c r p a g n d v ∧
      (filter_dataframe df c r p a g n d v).rows.Sublist df.rows := by
  constructor
  · apply frame_ext
    · rw [filter_dataframe_cols, filter_dataframe_cols]
    · rw [filter_dataframe_rows, filter_dataframe_rows, filter_dataframe_cols,
        List.filter_filter]
      apply List.filter_congr
      intro x _
      exact Bool.and_self _
  · rw [filter_dataframe_rows]
    exact List.filter_sublist df.rows

/-- Values observed in one dimension of the table (pandas
`df[col].dropna().unique()`, kept as a list with duplicates — only membership
matters for `isin`). -/
def observedVals (get : Row → Option String) (df : Frame) : List String :=
  df.rows.filterMap get

/-- Hypothesis under which filtering by all observed values of a dimension
keeps every row: either the dimension has no missing cell, or it has no
observed value at all (then the criteria list is empty and the filter is
skipped). -/
def DimTotal (get : Row → Option String) (df : Frame) : Prop :=
  (∀ r ∈ df.rows, (get r).isSome = true) ∨ df.rows.filterMap get = []

instance (get : Row → Option String) (df : Frame) : Decidable (DimTotal get df) := by
  unfold DimTotal
  infer_instance

theorem colFilter_observed (schema : List String) (cn : String)
    (get : Row → Option String) (df F : Frame) (hF : F.rows = df.rows)
    (h : DimTotal get df) :
    colFilter schema cn (observedVals get df) get F = F := by
  rcases h with h | h
  · unfold colFilter
    split
    · apply frame_ext
      · rfl
      · show F.rows.filter _ = F.rows
        apply List.filter_eq_self.mpr
        intro r hr
        rw [hF] at hr
        rcases Option.isSome_iff_exists.mp (h r hr) with ⟨v, hv⟩
        simp only [optMem, hv, observedVals]
        exact List.elem_eq_true_of_mem (List.mem_filterMap.mpr ⟨r, hr, hv⟩)
    · rfl
  · unfold colFilter observedVals
    rw [h]
    rfl

/-- Claim C1 (amended).  If every schema-present dimension either has no
missing cell or has no observed value at all, then filtering with each
dimension's inclusion list set to all of its observed values reproduces the
full table exactly.  (The hypothesis is stated for all eight dimensions; for a
dimension absent from the schema the filter is skipped regardless.) -/
theorem filter_all_observed_reproduces (df : Frame)
    (h1 : DimTotal Row.country df) (h2 : DimTotal Row.region df)
    (h3 : DimTotal Row.partner df) (h4 : DimTotal Row.ageRange df)
    (h5 : DimTotal Row.gender df) (h6 : DimTotal Row.newClient df)
    (h7 : DimTotal Row.duration df) (h8 : DimTotal Row.victim df) :
    filter_dataframe df (observedVals Row.country df) (observedVals Row.region df)
      (observedVals Row.partner df) (observedVals Row.ageRange df)
      (observedVals Row.gender df) (observedVals Row.newClient df)
      (observedVals Row.duration df) (observedVals Row.victim df) = df := by
  unfold filter_dataframe
  rw [colFilter_observed _ _ _ df df rfl h1]
  rw [colFilter_observed _ _ _ df df rfl h2]
  rw [colFilter_observed _ _ _ df df rfl h3]
  rw [colFilter_observed _ _ _ df df rfl h4]
  rw [colFilter_observed _ _ _ df df rfl h5]
  rw [colFilter_observed _ _ _ df df rfl h6]
  rw [colFilter_observed _ _ _ df df rfl h7]
  rw [colFilter_observed _ _ _ df df rfl h8]

/-- Witness frame for C1: country fully populated, every other dimension
entirely unobserved. -/
def witnessFrameC1 : Frame :=
  ⟨["country", "region"],
    [{ blankRow with country := some "UA" }, { blankRow with country := some "MD" }]⟩

/-- Witness for C1 (amended): on a concrete two-row table the hypotheses hold
and filtering by all observed values returns the table unchanged. -/
theorem filter_all_observed_reproduces_witness :
    DimTotal Row.country witnessFrameC1 ∧ DimTotal Row.region witnessFrameC1 ∧
      filter_dataframe witnessFrameC1 (observedVals Row.country witnessFrameC1)
        (observedVals Row.region witnessFrameC1) (observedVals Row.partner witnessFrameC1)
        (observedVals Row.ageRange witnessFrameC1) (observedVals Row.gender witnessFrameC1)
        (observedVals Row.newClient witnessFrameC1) (observedVals Row.duration witnessFrameC1)
        (observedVals Row.victim witnessFrameC1) = witnessFrameC1 :=
  ⟨by decide, by decide,
    filter_all_observed_reproduces witnessFrameC1 (by decide) (by decide) (by decide)
      (by decide) (by decide) (by decide) (by decide) (by decide)⟩

/-- Frame refuting C1 as stated: the country column is in the schema and has
one observed value, but the second row's country cell is missing, and `isin`
drops it. -/
def cexFrameC1 : Frame :=
  ⟨["country"], [{ blankRow with country := some "UA" }, blankRow]⟩

/-- Counterexample to C1 as stated: filtering `cexFrameC1` with every
dimension's inclusion list set to exactly its observed values does not
reproduce the table — the row with a missing country is dropped. -/
theorem filter_all_observed_cex :
    filter_dataframe cexFrameC1 (observedVals Row.country cexFrameC1)
      (observedVals Row.region cexFrameC1) (observedVals Row.partner cexFrameC1)
      (observedVals Row.ageRange cexFrameC1) (observedVals Row.gender cexFrameC1)
      (observedVals Row.newClient cexFrameC1) (observedVals Row.duration cexFrameC1)
      (observedVals Row.victim cexFrameC1) ≠ cexFrameC1 := by
  decide

/-- Arithmetic mean of a list of rationals.  Callers guard emptiness wherever
the source's float mean would be NaN. -/
def qMean (l : List ℚ) : ℚ := l.sum / l.length

/-- Mean modelling pandas `Series.mean`: NaN (`none`) on an empty selection. -/
def meanOpt (l : List ℚ) : Option ℚ := if l.isEmpty then none else some (qMean l)

/-- Float comparison `a < b` where either side may be NaN (`none`): any
comparison against NaN is `false`, as in IEEE float semantics. -/
def optLt (a b : Option ℚ) : Bool :=
  match a, b with
  | some x, some y => decide (x < y)
  | _, _ => false

/-- Rounding to two decimals, modelling `DataFrame.round(2)`.  Mathlib's
`round` (half-up) stands in for numpy's float rounding; the two differ only at
exact half-cent ties, which no claim and no counterexample here exercises. -/
def round2 (q : ℚ) : ℚ := (round (q * 100) : ℚ) / 100

/-- Sum of a binary indicator column over the rows (`filtered_df[col].sum()`,
a missing cell contributing 0). -/
def colSum (rows : List Row) (c : String) : ℚ :=
  (rows.map (fun r => (r.indVal c).getD 0)).sum

/-- The chronic-condition indicator group (src/app.py:56-62). -/
def chronic_columns : List String :=
  ["chronic cardiovascular", "Diabetes", "Respiratory diseases",
    "Musculoskeletal disorders", "Neurological disorders", "Dementia",
    "Oncological diseases", "Vision or hearing impairments",
    "Physical limitations due to injuries or disability",
    "Other (please specify)", "No chronic diseases or physical limitations"]

/-- The activity-participation indicator group (src/app.py:65-69). -/
def activity_columns : List String :=
  ["activity volunteers social", "Social events", "Interest-based clubs",
    "Home care", "Psychological support (group)", "Psychological support (individual)",
    "Warm ome / Welcoming space", "Physical rehabilitation", "Physical activities"]

/-- The service-received indicator group (src/app.py:72-78). -/
def service_columns : List String :=
  ["None of the above", "Purchase of tablets or phones",
    "Mobility or exercise equipment", "Medical treatment", "Medical devices",
    "Delivery of food packages/hot meals", "Medical support",
    "Delivery of blood pressure/oximeters", "Winter assistance",
    "Other material assistance"]

/-- Descending-count order on summary entries (ties in either order, as the
source's unstable `sort_values` leaves tie order unspecified). -/
def entryGe (a b : String × ℚ × ℚ) : Prop := b.2.1 ≤ a.2.1

instance : DecidableRel entryGe :=
  fun a b => inferInstanceAs (Decidable (b.2.1 ≤ a.2.1))

instance : IsTotal (String × ℚ × ℚ) entryGe := ⟨fun a b => le_total b.2.1 a.2.1⟩

instance : IsTrans (String × ℚ × ℚ) entryGe := ⟨fun _ _ _ h1 h2 => le_trans h2 h1⟩

/-- Indicator-group summary (src/app.py:616-630, with identical twins for
activities at 675-688 and services at 721-734): for each group column present
in the schema, count = column sum and percentage = count / total * 100 when
the row count is positive, else count 0 and percentage 0; the entries are
returned sorted by descending count (`sort_values('Count', ascending=False)`). -/
def indicatorSummary (group : List String) (df : Frame) : List (String × ℚ × ℚ) :=
  let available := group.filter (fun c => df.cols.contains c)
  let total := df.rows.length
  let data :=
    if 0 < total then
      available.map (fun c => (c, colSum df.rows c, colSum df.rows c / (total : ℚ) * 100))
    else
      available.map (fun c => (c, 0, 0))
  List.insertionSort entryGe data

/-- Distinct observed values of a categorical column with their counts
(`Series.value_counts`; its count-descending presentation order is not
modelled, no claim depends on it). -/
def valueCounts (vals : List String) : List (String × ℕ) :=
  vals.dedup.map (fun v => (v, vals.count v))

/-- Categorical distribution with the zero-total percentage guard
(src/app.py:529-537 and twins): percentage = count / total * 100 when the
total is positive, else 0. -/
def categoricalDist (vals : List String) : List (String × ℕ × ℚ) :=
  let counts := valueCounts vals
  let total := (counts.map (fun p => p.2)).sum
  if 0 < total then counts.map (fun p => (p.1, p.2, (p.2 : ℚ) / (total : ℚ) * 100))
  else counts.map (fun p => (p.1, p.2, 0))

/-- Key pairs entering `pd.crosstab(rows, cols)`: rows of the table where
either key is missing are dropped by crosstab. -/
def crosstabPairs (rows : List Row) (rk ck : Row → Option String) :
    List (String × String) :=
  rows.filterMap (fun r =>
    match rk r, ck r with
    | some a, some b => some (a, b)
    | _, _ => none)

/-- Row-normalized crosstab cell: percentage of column category `c` among the
pairs whose row category is `a`. -/
def crosstabRowPct (ps : List (String × String)) (a c : String) : ℚ :=
  (((ps.filter (fun p => p.1 == a)).filter (fun p => p.2 == c)).length : ℚ)
    / ((ps.filter (fun p => p.1 == a)).length : ℚ) * 100

/-- First index attaining the maximum of `f` (`Series.idxmax`). -/
def argmaxQ (f : String → ℚ) : List String → Option String
  | [] => none
  | a :: t =>
    match argmaxQ f t with
    | none => some a
    | some b => if f a < f b then some b else some a

/-- Model of src/app.py:820-834: build the frequency-by-age cross-tab
(row-normalized to percentages), select its 'Several times a week' column and
take `idxmax`.  Selecting that column raises `KeyError` whenever no
crosstab-retained row carries that frequency value — in particular on a
zero-row table — modelled by `none`. -/
def mostActiveAge (rows : List Row) : Option String :=
  let ps := crosstabPairs rows Row.ageRange Row.freq
  if (ps.map Prod.snd).contains "Several times a week" then
    argmaxQ (fun a => crosstabRowPct ps a "Several times a week") (ps.map Prod.fst).dedup
  else none

/-- Age-bracket ordinal used to sort the age distribution
(src/app.py:571-577, `age_mapping = {age: i for i, age in enumerate(age_order)}`
consulted through `Series.map`): an unmapped category gets NaN (`none`). -/
def ageSortOrder (s : String) : Option ℕ :=
  ["18-54", "55-69", "70-85", "85+", "unknown"].indexOf? s

/-- Comparison of sort keys with NaN (`none`) ordered last, as pandas
`sort_values` places NaN keys last. -/
def naLastLe (a b : Option ℕ) : Bool :=
  match a, b with
  | some x, some y => x ≤ y
  | some _, none => true
  | none, b => b.isNone

/-- Sorting the age-distribution categories by the mapped ordinal with
unmapped categories last (src/app.py:577-580). -/
def sortAgeCategories (cats : List String) : List String :=
  List.insertionSort (fun a b => naLastLe (ageSortOrder a) (ageSortOrder b) = true) cats

/-- Display-order rank of a general-health self-assessment label, as stored in
the `order` field of `health_mapping` (src/app.py:974-985); a label outside the
ten keys has no entry. -/
def healthOrder (s : String) : Option ℕ :=
  match s with
  | "1. Отличное" => some 1
  | "2. Очень хорошее" => some 2
  | "3. Хорошее" => some 3
  | "4. Удовлетворительное" => some 4
  | "5. Плохое" => some 5
  | "4. Satisfactory" => some 4
  | "3. Good" => some 3
  | "2. Very good" => some 2
  | "1. Excellent" => some 1
  | "5. Bad" => some 5
  | _ => none

/-- Model of src/app.py:995-1000: the general-health distribution takes the
distinct observed assessment values and looks each up with a plain dict
subscript (`health_mapping[x]`) inside a `map` lambda.  An unmapped value
raises `KeyError`; the whole table build is therefore `Option`-valued and
returns `none` exactly when some observed value is unmapped. -/
def generalHealthSortKeys (rows : List Row) : Option (List (String × ℕ)) :=
  ((rows.filterMap Row.health).dedup).mapM
    (fun v => (healthOrder v).map (fun o => (v, o)))

/-- Health self-assessment score, 5 = best to 1 = worst
(`health_score_mapping`, src/app.py:1167-1178), consulted through
`Series.map`: an unmapped label becomes NaN (`none`). -/
def health_score_mapping (s : String) : Option ℚ :=
  match s with
  | "1. Отличное" => some 5
  | "2. Очень хорошее" => some 4
  | "3. Хорошее" => some 3
  | "4. Удовлетворительное" => some 2
  | "5. Плохое" => some 1
  | "1. Excellent" => some 5
  | "2. Very good" => some 4
  | "3. Good" => some 3
  | "4. Satisfactory" => some 2
  | "5. Bad" => some 1
  | _ => none

/-- Program-duration ordinal 1..5 (`duration_order`, src/app.py:1181-1188),
consulted through `Series.map`: an unmapped bucket becomes NaN (`none`). -/
def duration_order (s : String) : Option ℚ :=
  match s with
  | "1-3 months" => some 1
  | "3-6 months" => some 2
  | "6-12 months" => some 3
  | "1-2 years" => some 4
  | "More than 2 years" => some 5
  | "more than 2 years" => some 5
  | _ => none

/-- Claim C2 (code bug at src/app.py:999-1000).  The age and duration ordinal
lookups go through `Series.map` and deterministically turn an unmapped
category into NaN, which sorts last; but the general-health distribution
subscripts the dict directly (`health_mapping[x]`) inside a lambda, so a
single unmapped observed health value — for example the bare label "Good" —
raises `KeyError` (modelled `none`) instead of being ranked last or surfaced
as-is. -/
theorem unmapped_category_lookups :
    healthOrder "Good" = none ∧
    generalHealthSortKeys [{ blankRow with health := some "Good" }] = none ∧
    generalHealthSortKeys [{ blankRow with health := some "3. Good" }]
      = some [("3. Good", 3)] ∧
    ageSortOrder "middle-aged" = none ∧
    sortAgeCategories ["70-85", "18-54", "unknown", "55-69"]
      = ["18-54", "55-69", "70-85", "unknown"] ∧
    sortAgeCategories ["70-85", "middle-aged", "18-54"]
      = ["18-54", "70-85", "middle-aged"] ∧
    duration_order "occasionally" = none := by
  decide

/-- Claim C7 (code bug at src/app.py:832).  On a zero-row table the guarded
aggregations degrade to well-formed zero output — the categorical distribution
is empty and every indicator-summary entry reports count 0 and percentage 0 —
but the frequency-by-age summary selects the 'Several times a week' column
from the then-empty cross-tab, raising `KeyError` (`none`) instead of
returning a structure. -/
theorem zero_row_aggregations (df : Frame) (hdf : df.rows = []) :
    categoricalDist [] = [] ∧
    (∀ group, ∀ e ∈ indicatorSummary group df, e.2.1 = 0 ∧ e.2.2 = 0) ∧
    mostActiveAge df.rows = none := by
  refine ⟨rfl, ?_, by rw [hdf]; rfl⟩
  intro group e he
  simp only [indicatorSummary, hdf, List.length_nil, lt_irrefl, if_false,
    List.mem_insertionSort, List.mem_map] at he
  obtain ⟨c, _, rfl⟩ := he
  exact ⟨rfl, rfl⟩

/-- Witness for C7: the model evaluated at a concrete empty frame. -/
theorem zero_row_aggregations_witness :
    (Frame.mk ["country"] []).rows = [] ∧
      (∀ group, ∀ e ∈ indicatorSummary group (Frame.mk ["country"] []),
        e.2.1 = 0 ∧ e.2.2 = 0) ∧
      mostActiveAge (Frame.mk ["country"] []).rows = none :=
  ⟨rfl, (zero_row_aggregations ⟨["country"], []⟩ rfl).2.1,
    (zero_row_aggregations ⟨["country"], []⟩ rfl).2.2⟩

/-- The 4-respondent example table of the specification: indicator sums
A = 3, B = 1, C = 2. -/
def exampleFrameC9 : Frame :=
  ⟨["A", "B", "C"],
    [{ blankRow with ind := [("A", 1), ("B", 0), ("C", 1)] },
      { blankRow with ind := [("A", 1), ("B", 1), ("C", 1)] },
      { blankRow with ind := [("A", 1), ("B", 0), ("C", 0)] },
      { blankRow with ind := [("A", 0), ("B", 0), ("C", 0)] }]⟩

/-- Claim C9.  The indicator-group summary computes, for each available column
of the group, count = column sum and percentage = count / total * 100 (the
zero-total guard is exercised in the C7 theorem), returns the entries sorted
by descending count, and on the concrete 4-respondent example with sums A=3,
B=1, C=2 yields counts 3/1/2, percentages 75/25/50 and order [A, C, B]. -/
theorem indicator_summary_spec :
    (∀ group df, List.Sorted entryGe (indicatorSummary group df)) ∧
    (∀ group df, 0 < df.rows.length →
      (indicatorSummary group df).Perm
        ((group.filter (fun c => df.cols.contains c)).map
          (fun c => (c, colSum df.rows c,
            colSum df.rows c / (df.rows.length : ℚ) * 100)))) ∧
    indicatorSummary ["A", "B", "C"] exampleFrameC9
      = [("A", 3, 75), ("C", 2, 50), ("B", 1, 25)] := by
  refine ⟨fun group df => List.sorted_insertionSort entryGe _,
    fun group df h => ?_, ?_⟩
  · simp only [indicatorSummary, if_pos h]
    exact List.perm_insertionSort entryGe _
  · simp only [indicatorSummary, exampleFrameC9, colSum, Row.indVal, blankRow]
    simp
    norm_num [List.insertionSort, List.orderedInsert, entryGe]

/-- Witness for C9: the permutation clause applied at the concrete example
frame, its positivity hypothesis discharged there. -/
theorem indicator_summary_spec_witness :
    0 < exampleFrameC9.rows.length ∧
      (indicatorSummary ["A", "B", "C"] exampleFrameC9).Perm
        ((["A", "B", "C"].filter (fun c => exampleFrameC9.cols.contains c)).map
          (fun c => (c, colSum exampleFrameC9.rows c,
            colSum exampleFrameC9.rows c / (exampleFrameC9.rows.length : ℚ) * 100))) :=
  ⟨by decide, indicator_summary_spec.2.1 ["A", "B", "C"] exampleFrameC9 (by decide)⟩

/-- Occurrence of `pat` as a contiguous sublist. -/
def occursInCh (pat : List Char) : List Char → Bool
  | [] => pat.isEmpty
  | c :: t => pat.isPrefixOf (c :: t) || occursInCh pat t

/-- Substring test modelling `Series.str.contains(pat)` at one cell; the
pattern used by the source, '1-3', has no regex metacharacters, so regex
containment coincides with plain substring containment. -/
def containsSub (s pat : String) : Bool := occursInCh pat.toList s.toList

/-- New-client flag (src/app.py:1127): the duration cell textually contains
'1-3'; a missing cell gives `False` (`na=False`). -/
def is_new_client (r : Row) : Bool :=
  match r.duration with
  | some s => containsSub s "1-3"
  | none => false

/-- Overall-help ratings of one H2 partition: the rows whose new-client flag
equals `b`, keeping only non-missing ratings (which is what
`groupby(...)[rating_col].agg(['mean','count'])` consults). -/
def h2Ratings (rows : List Row) (b : Bool) : List ℚ :=
  (rows.filter (fun r => is_new_client r == b)).filterMap Row.rating

/-- Mean/count of one H2 partition (src/app.py:1130-1148).  The groupby index
contains the flag only when some row carries it; otherwise the code falls back
to `pd.Series({'mean': 0, 'count': 0})`.  The aggregated frame is rounded to
two decimals (`.round(2)`) before any use; a partition whose ratings are all
missing has mean NaN (`none`) and count 0. -/
def h2Stats (rows : List Row) (b : Bool) : Option ℚ × ℕ :=
  if (rows.filter (fun r => is_new_client r == b)).isEmpty then (some 0, 0)
  else ((meanOpt (h2Ratings rows b)).map round2, (h2Ratings rows b).length)

/-- H2 conclusion (src/app.py:1152-1155): supported iff the new-client mean is
strictly below the existing-client mean, both taken from the rounded agg
frame; a comparison against NaN is false. -/
def h2Supported (rows : List Row) : Bool :=
  optLt (h2Stats rows true).1 (h2Stats rows false).1

/-- Rows refuting C3 as stated: the new partition (7 rows of '1-3 months')
has exact mean 16/7 and the existing partition (17 rows of '1-2 years') exact
mean 39/17; the means are distinct and strictly ordered, yet both round to
2.29, so the code concludes not-supported. -/
def cexRowsC3 : List Row :=
  List.replicate 5 { blankRow with duration := some "1-3 months", rating := some 2 } ++
    List.replicate 2 { blankRow with duration := some "1-3 months", rating := some 3 } ++
    List.replicate 12 { blankRow with duration := some "1-2 years", rating := some 2 } ++
    List.replicate 5 { blankRow with duration := some "1-2 years", rating := some 3 }

/-- Counterexample to C3 as stated: on `cexRowsC3` the exact new-client mean
is strictly less than the exact existing-client mean, yet the evaluator
concludes not-supported, because it compares the means only after
`.round(2)`. -/
theorem h2_strict_mean_cex :
    qMean (h2Ratings cexRowsC3 true) < qMean (h2Ratings cexRowsC3 false) ∧
      h2Supported cexRowsC3 = false := by
  have e1 : h2Ratings cexRowsC3 true = List.replicate 5 (2 : ℚ) ++ List.replicate 2 3 := by
    decide
  have e2 : h2Ratings cexRowsC3 false = List.replicate 12 (2 : ℚ) ++ List.replicate 5 3 := by
    decide
  have m1 : qMean (h2Ratings cexRowsC3 true) = 16 / 7 := by
    rw [e1]
    simp [qMean, List.sum_replicate, smul_eq_mul]
    norm_num
  have m2 : qMean (h2Ratings cexRowsC3 false) = 39 / 17 := by
    rw [e2]
    simp [qMean, List.sum_replicate, smul_eq_mul]
    norm_num
  refine ⟨by rw [m1, m2]; norm_num, ?_⟩
  have hne1 : (cexRowsC3.filter (fun r => is_new_client r == true)).isEmpty = false := by
    decide
  have hne2 : (cexRowsC3.filter (fun r => is_new_client r == false)).isEmpty = false := by
    decide
  have hr1 : (h2Ratings cexRowsC3 true).isEmpty = false := by decide
  have hr2 : (h2Ratings cexRowsC3 false).isEmpty = false := by decide
  have r1 : round2 (16 / 7) = 229 / 100 := by
    norm_num [round2, round_eq]
  have r2 : round2 (39 / 17) = 229 / 100 := by
    norm_num [round2, round_eq]
  simp only [h2Supported, h2Stats, hne1, hne2, Bool.false_eq_true, if_false,
    meanOpt, hr1, hr2, m1, m2, r1, r2, Option.map_some]
  simp [optLt, r1, r2]

/-- Claim C3 (amended).  The H2 evaluator partitions rows by whether the
duration bucket textually contains "1-3" — among the known buckets exactly the
1-3 month one; a missing duration counts as existing — reports each
partition's mean overall-help rating rounded to two decimals together with the
count of its rated rows, reports mean 0 and count 0 for a zero-member
partition rather than failing, and concludes supported exactly when both
rounded means are defined and the new-client one is strictly less. -/
theorem h2_evaluator_spec :
    (is_new_client { blankRow with duration := some "1-3 months" } = true ∧
      is_new_client { blankRow with duration := some "3-6 months" } = false ∧
      is_new_client { blankRow with duration := some "6-12 months" } = false ∧
      is_new_client { blankRow with duration := some "1-2 years" } = false ∧
      is_new_client { blankRow with duration := some "More than 2 years" } = false ∧
      is_new_client blankRow = false) ∧
    (∀ rows b, (rows.filter (fun r => is_new_client r == b)).isEmpty = true →
      h2Stats rows b = (some 0, 0)) ∧
    (∀ rows b, (rows.filter (fun r => is_new_client r == b)).isEmpty = false →
      (h2Ratings rows b).isEmpty = false →
      h2Stats rows b
        = (some (round2 (qMean (h2Ratings rows b))), (h2Ratings rows b).length)) ∧
    (∀ rows, h2Supported rows = true ↔
      ∃ x y, (h2Stats rows true).1 = some x ∧ (h2Stats rows false).1 = some y ∧ x < y) := by
  refine ⟨by decide, fun rows b h => ?_, fun rows b h hr => ?_, fun rows => ?_⟩
  · simp only [h2Stats, h, if_true]
  · simp only [h2Stats, h, Bool.false_eq_true, if_false, meanOpt, hr]
    rfl
  · unfold h2Supported
    cases h1 : (h2Stats rows true).1 <;> cases h2 : (h2Stats rows false).1 <;>
      simp [optLt, h1, h2]

/-- The specification's own H2 example rows: durations
["1-3 months", "1-3 months", "1-2 years"] with ratings [2, 4, 5]. -/
def exampleRowsH2 : List Row :=
  [{ blankRow with duration := some "1-3 months", rating := some 2 },
    { blankRow with duration := some "1-3 months", rating := some 4 },
    { blankRow with duration := some "1-2 years", rating := some 5 }]

/-- Witness for C3 (amended) at the specification's example: the nonempty-
partition clause applies, giving new mean 3.0 with count 2, and the evaluator
concludes supported. -/
theorem h2_evaluator_spec_witness :
    (exampleRowsH2.filter (fun r => is_new_client r == true)).isEmpty = false ∧
      (h2Ratings exampleRowsH2 true).isEmpty = false ∧
      h2Stats exampleRowsH2 true
        = (some (round2 (qMean (h2Ratings exampleRowsH2 true))),
            (h2Ratings exampleRowsH2 true).length) ∧
      h2Stats exampleRowsH2 true = (some 3, 2) ∧
      h2Stats exampleRowsH2 false = (some 5, 1) ∧
      h2Supported exampleRowsH2 = true := by
  have e1 : h2Ratings exampleRowsH2 true = [2, 4] := by decide
  have e2 : h2Ratings exampleRowsH2 false = [5] := by decide
  have m1 : qMean (h2Ratings exampleRowsH2 true) = 3 := by
    rw [e1]; simp [qMean]; norm_num
  have m2 : qMean (h2Ratings exampleRowsH2 false) = 5 := by
    rw [e2]; simp [qMean]
  have r1 : round2 (3 : ℚ) = 3 := by norm_num [round2, round_eq]
  have r2 : round2 (5 : ℚ) = 5 := by norm_num [round2, round_eq]
  have hne1 : (exampleRowsH2.filter (fun r => is_new_client r == true)).isEmpty = false := by
    decide
  have hne2 : (exampleRowsH2.filter (fun r => is_new_client r == false)).isEmpty = false := by
    decide
  have hr1 : (h2Ratings exampleRowsH2 true).isEmpty = false := by decide
  have hr2 : (h2Ratings exampleRowsH2 false).isEmpty = false := by decide
  have hs1 : h2Stats exampleRowsH2 true
      = (some (round2 (qMean (h2Ratings exampleRowsH2 true))),
          (h2Ratings exampleRowsH2 true).length) :=
    h2_evaluator_spec.2.2.1 exampleRowsH2 true hne1 hr1
  have hs1v : h2Stats exampleRowsH2 true = (some 3, 2) := by
    rw [hs1, m1, r1, e1]
    simp
  have hs2v : h2Stats exampleRowsH2 false = (some 5, 1) := by
    rw [h2_evaluator_spec.2.2.1 exampleRowsH2 false hne2 hr2, m2, r2, e2]
    simp
  refine ⟨hne1, hr1, hs1, hs1v, hs2v, ?_⟩
  simp only [h2Supported, hs1v, hs2v, optLt]
  norm_num

/-- Per-row (duration ordinal, health score) pairs entering the H3 correlation
(src/app.py:1191, 1236-1237): a row lacking either value — a missing or
unmapped cell on either side — is excluded by `Series.corr`. -/
def h3Pairs (rows : List Row) : List (ℚ × ℚ) :=
  rows.filterMap (fun r =>
    match r.duration.bind duration_order, r.health.bind health_score_mapping with
    | some d, some h => some (d, h)
    | _, _ => none)

/-- Centered cross-product sum of the pairs (the covariance up to the common
1/(n-1) factor, which cancels in Pearson's r). -/
def h3Cov (ps : List (ℚ × ℚ)) : ℚ :=
  (ps.map (fun p =>
    (p.1 - qMean (ps.map Prod.fst)) * (p.2 - qMean (ps.map Prod.snd)))).sum

/-- Centered sum of squares of the duration ordinals. -/
def h3VarX (ps : List (ℚ × ℚ)) : ℚ :=
  (ps.map (fun p => (p.1 - qMean (ps.map Prod.fst)) ^ 2)).sum

/-- Centered sum of squares of the health scores. -/
def h3VarY (ps : List (ℚ × ℚ)) : ℚ :=
  (ps.map (fun p => (p.2 - qMean (ps.map Prod.snd)) ^ 2)).sum

/-- Pearson's r = h3Cov / √(h3VarX · h3VarY) is a number exactly when at
least two complete pairs remain and both variances are nonzero; in every other
case `Series.corr` returns NaN. -/
def h3CorrDefined (ps : List (ℚ × ℚ)) : Bool :=
  decide (2 ≤ ps.length ∧ h3VarX ps ≠ 0 ∧ h3VarY ps ≠ 0)

/-- The three H3 conclusions (src/app.py:1242-1247; the displayed sentences
are abstracted to their verdict). -/
inductive H3Verdict where
  | noSignificantCorr
  | positiveCorr
  | negativeCorr
deriving DecidableEq

/-- H3 conclusion branch (src/app.py:1242-1247).  With r = cov / √(vx·vy) and
vx, vy > 0, the float tests translate exactly: |r| < 0.1 iff cov²·100 < vx·vy,
and r > 0.1 iff cov > 0 and vx·vy < cov²·100 (0.1² = 1/100).  A NaN r — fewer
than two complete pairs or a zero variance — satisfies neither test and falls
through to the final (negative-correlation) branch, as NaN comparisons are
false. -/
def h3Verdict (rows : List Row) : H3Verdict :=
  let ps := h3Pairs rows
  if h3CorrDefined ps then
    if (h3Cov ps) ^ 2 * 100 < h3VarX ps * h3VarY ps then H3Verdict.noSignificantCorr
    else if 0 < h3Cov ps ∧ h3VarX ps * h3VarY ps < (h3Cov ps) ^ 2 * 100 then
      H3Verdict.positiveCorr
    else H3Verdict.negativeCorr
  else H3Verdict.negativeCorr

/-- Claim C5.  The H3 evaluator maps the health categories to scores 5 (best)
down to 1 (worst) and the duration buckets to ordinals 1..5, excludes rows
lacking either value from the correlation, and — writing r = cov/√(vx·vy) for
Pearson's r over the remaining pairs, so that |r| < 1/10 iff cov²·100 < vx·vy,
r > 1/10 iff cov > 0 with vx·vy < cov²·100, and r ≤ -1/10 iff cov < 0 with
vx·vy ≤ cov²·100 — emits the no-significant-correlation conclusion when
|r| < 0.1, the positive (supported) conclusion when r > 0.1, and the
negative (not supported) conclusion when r ≤ -0.1. -/
theorem h3_threshold_rule :
    (health_score_mapping "1. Отличное" = some 5 ∧
      health_score_mapping "2. Очень хорошее" = some 4 ∧
      health_score_mapping "3. Хорошее" = some 3 ∧
      health_score_mapping "4. Удовлетворительное" = some 2 ∧
      health_score_mapping "5. Плохое" = some 1 ∧
      health_score_mapping "1. Excellent" = some 5 ∧
      health_score_mapping "2. Very good" = some 4 ∧
      health_score_mapping "3. Good" = some 3 ∧
      health_score_mapping "4. Satisfactory" = some 2 ∧
      health_score_mapping "5. Bad" = some 1) ∧
    (duration_order "1-3 months" = some 1 ∧
      duration_order "3-6 months" = some 2 ∧
      duration_order "6-12 months" = some 3 ∧
      duration_order "1-2 years" = some 4 ∧
      duration_order "More than 2 years" = some 5 ∧
      duration_order "more than 2 years" = some 5) ∧
    (∀ r rows, (r.duration.bind duration_order = none ∨
        r.health.bind health_score_mapping = none) →
      h3Pairs (r :: rows) = h3Pairs rows) ∧
    (∀ rows, h3CorrDefined (h3Pairs rows) = true →
      ((h3Cov (h3Pairs rows)) ^ 2 * 100 < h3VarX (h3Pairs rows) * h3VarY (h3Pairs rows) →
        h3Verdict rows = H3Verdict.noSignificantCorr) ∧
      (0 < h3Cov (h3Pairs rows) ∧
          h3VarX (h3Pairs rows) * h3VarY (h3Pairs rows) < (h3Cov (h3Pairs rows)) ^ 2 * 100 →
        h3Verdict rows = H3Verdict.positiveCorr) ∧
      (h3Cov (h3Pairs rows) < 0 ∧
          h3VarX (h3Pairs rows) * h3VarY (h3Pairs rows) ≤ (h3Cov (h3Pairs rows)) ^ 2 * 100 →
        h3Verdict rows = H3Verdict.negativeCorr)) := by
  refine ⟨by decide, by decide, fun r rows h => ?_, fun rows hdef => ?_⟩
  · cases hd : r.duration.bind duration_order with
    | none => simp [h3Pairs, List.filterMap_cons, hd]
    | some d =>
      rcases h with h | h
      · rw [hd] at h
        exact absurd h (by simp)
      · simp [h3Pairs, List.filterMap_cons, hd, h]
  · refine ⟨fun h1 => ?_, fun h2 => ?_, fun h3 => ?_⟩
    · simp only [h3Verdict, hdef, if_true]
      rw [if_pos h1]
    · simp only [h3Verdict, hdef, if_true]
      rw [if_neg (not_lt.mpr (le_of_lt h2.2)), if_pos h2]
    · simp only [h3Verdict, hdef, if_true]
      rw [if_neg (not_lt.mpr h3.2),
        if_neg (fun hc => absurd hc.1 (not_lt.mpr (le_of_lt h3.1)))]

/-- The specification's own H3 example rows: duration ordinals [1, 2, 3] with
health scores [5, 3, 1]. -/
def exampleRowsH3 : List Row :=
  [{ blankRow with duration := some "1-3 months", health := some "1. Excellent" },
    { blankRow with duration := some "3-6 months", health := some "3. Good" },
    { blankRow with duration := some "6-12 months", health := some "5. Bad" }]

/-- Witness for C5 at the specification's example: r is defined and strongly
negative (cov = -4 < 0, cov²·100 = 1600 ≥ 16 = vx·vy), and the claim's
negative clause yields the not-supported (negative correlation) conclusion. -/
theorem h3_threshold_rule_witness :
    h3CorrDefined (h3Pairs exampleRowsH3) = true ∧
      h3Cov (h3Pairs exampleRowsH3) < 0 ∧
      h3Verdict exampleRowsH3 = H3Verdict.negativeCorr := by
  have hp : h3Pairs exampleRowsH3 = [(1, 5), (2, 3), (3, 1)] := by decide
  have hc : h3Cov [((1 : ℚ), (5 : ℚ)), (2, 3), (3, 1)] = -4 := by
    simp [h3Cov, qMean]
    norm_num
  have hvx : h3VarX [((1 : ℚ), (5 : ℚ)), (2, 3), (3, 1)] = 2 := by
    simp [h3VarX, qMean]
    norm_num
  have hvy : h3VarY [((1 : ℚ), (5 : ℚ)), (2, 3), (3, 1)] = 8 := by
    simp [h3VarY, qMean]
    norm_num
  have hdef : h3CorrDefined (h3Pairs exampleRowsH3) = true := by
    rw [hp]
    simp [h3CorrDefined, hvx, hvy]
  refine ⟨hdef, by rw [hp, hc]; norm_num, ?_⟩
  exact (h3_threshold_rule.2.2.2 exampleRowsH3 hdef).2.2
    ⟨by rw [hp, hc]; norm_num, by rw [hp, hc, hvx, hvy]; norm_num⟩

/-- Claim C10.  Whenever the H3 Pearson correlation is undefined (NaN:
fewer than two complete pairs after the exclusions, or a zero variance), both
threshold tests are false — NaN satisfies neither |r| < 0.1 nor r > 0.1 — and
the evaluator falls through to the negative-correlation, not-supported
conclusion. -/
theorem h3_nan_verdict :
    (∀ ps : List (ℚ × ℚ), ps.length < 2 ∨ h3VarX ps = 0 ∨ h3VarY ps = 0 →
      h3CorrDefined ps = false) ∧
    (∀ rows, h3CorrDefined (h3Pairs rows) = false →
      h3Verdict rows = H3Verdict.negativeCorr ∧
        h3Verdict rows ≠ H3Verdict.noSignificantCorr ∧
        h3Verdict rows ≠ H3Verdict.positiveCorr) := by
  constructor
  · intro ps h
    simp only [h3CorrDefined, decide_eq_false_iff_not]
    rcases h with h | h | h
    · exact fun hc => absurd hc.1 (by omega)
    · exact fun hc => absurd h hc.2.1
    · exact fun hc => absurd h hc.2.2
  · intro rows h
    have hv : h3Verdict rows = H3Verdict.negativeCorr := by
      simp only [h3Verdict, h, Bool.false_eq_true, if_false]
    refine ⟨hv, by rw [hv]; exact fun hc => H3Verdict.noConfusion hc,
      by rw [hv]; exact fun hc => H3Verdict.noConfusion hc⟩

/-- Two complete rows sharing a duration bucket: the duration variance is 0,
so r is NaN. -/
def nanRowsH3 : List Row :=
  [{ blankRow with duration := some "1-3 months", health := some "1. Excellent" },
    { blankRow with duration := some "1-3 months", health := some "5. Bad" }]

/-- Witness for C10: on two rows with equal duration ordinals the correlation
is undefined (zero duration variance) and the verdict is the
negative-correlation conclusion. -/
theorem h3_nan_verdict_witness :
    h3CorrDefined (h3Pairs nanRowsH3) = false ∧
      h3Verdict nanRowsH3 = H3Verdict.negativeCorr := by
  have hp : h3Pairs nanRowsH3 = [(1, 5), (1, 1)] := by decide
  have hvx : h3VarX (h3Pairs nanRowsH3) = 0 := by
    rw [hp]
    simp [h3VarX, qMean]
  have hfalse : h3CorrDefined (h3Pairs nanRowsH3) = false :=
    h3_nan_verdict.1 (h3Pairs nanRowsH3) (Or.inr (Or.inl hvx))
  exact ⟨hfalse, (h3_nan_verdict.2 nanRowsH3 hfalse).1⟩

/-- The H1 physical-activity columns (src/app.py:1040). -/
def physical_cols : List String := ["Physical rehabilitation", "Physical activities"]

/-- The H1 psychosocial-activity columns (src/app.py:1044). -/
def psycho_cols : List String :=
  ["Social events", "Psychological support (group)", "Psychological support (individual)"]

/-- Columns of a group present in the schema (`[col for col in group if col in
filtered_df.columns]`). -/
def availIn (df : Frame) (group : List String) : List String :=
  group.filter (fun c => df.cols.contains c)

/-- Per-row activity percentage (src/app.py:1049-1061): row-wise sum over the
available columns of the family (missing cells contribute 0) divided by the
number of available columns. -/
def rowGroupPercent (r : Row) (avail : List String) : ℚ :=
  (avail.map (fun c => (r.indVal c).getD 0)).sum / avail.length

/-- Rows kept for H1: the age bracket is not the literal 'unknown'
(src/app.py:1064; a missing bracket survives this comparison but is then
dropped by groupby). -/
def h1Rows (df : Frame) : List Row :=
  df.rows.filter (fun r => !(r.ageRange == some "unknown"))

/-- The age brackets of the H1 groupby: distinct non-missing brackets among
the kept rows.  (pandas sorts the group keys; the order is irrelevant here
because every consumer below takes a mean over a selection.) -/
def h1Brackets (df : Frame) : List String :=
  ((h1Rows df).filterMap Row.ageRange).dedup

/-- The kept rows of one age bracket. -/
def bracketRows (df : Frame) (b : String) : List Row :=
  (h1Rows df).filter (fun r => r.ageRange == some b)

/-- One line of `age_activity_pref` (src/app.py:1067-1077): bracket, mean
physical percentage × 100, mean psychosocial percentage × 100.  Each groupby
group is nonempty, so the means are ordinary rationals. -/
def h1Entry (df : Frame) (b : String) : String × ℚ × ℚ :=
  (b,
    qMean ((bracketRows df b).map (fun r => rowGroupPercent r (availIn df physical_cols))) * 100,
    qMean ((bracketRows df b).map (fun r => rowGroupPercent r (availIn df psycho_cols))) * 100)

/-- The `age_activity_pref` aggregation table. -/
def ageActivityPref (df : Frame) : List (String × ℚ × ℚ) :=
  (h1Brackets df).map (h1Entry df)

/-- The two youngest brackets selected at src/app.py:1099-1102. -/
def youngRange : List String := ["18-54", "55-69"]

/-- The two oldest brackets selected at src/app.py:1100-1103. -/
def oldRange : List String := ["70-85", "85+"]

/-- Selection mean over the aggregation table
(`age_activity_pref.loc[isin(sel), col].mean()`): mean of the projected
column over the table lines whose bracket lies in `sel`; NaN (`none`) when no
selected bracket is present. -/
def selMean (df : Frame) (sel : List String) (f : String × ℚ × ℚ → ℚ) : Option ℚ :=
  meanOpt (((ageActivityPref df).filter (fun t => sel.contains t.1)).map f)

/-- `younger_physical` of src/app.py:1099. -/
def younger_physical (df : Frame) : Option ℚ := selMean df youngRange (fun t => t.2.1)

/-- `older_physical` of src/app.py:1100. -/
def older_physical (df : Frame) : Option ℚ := selMean df oldRange (fun t => t.2.1)

/-- `younger_psycho` of src/app.py:1102. -/
def younger_psycho (df : Frame) : Option ℚ := selMean df youngRange (fun t => t.2.2)

/-- `older_psycho` of src/app.py:1103. -/
def older_psycho (df : Frame) : Option ℚ := selMean df oldRange (fun t => t.2.2)

/-- The four H1 conclusions (src/app.py:1105-1112; display sentences
abstracted to their verdict). -/
inductive H1Verdict where
  | fullySupported
  | physicalOnly
  | psychoOnly
  | notSupported
deriving DecidableEq

/-- H1 verdict (src/app.py:1105-1112), under the guards of src/app.py:1038 and
1047: `none` when the age column or either activity-column family is absent
from the schema.  Comparisons against a NaN group mean are false. -/
def h1Verdict (df : Frame) : Option H1Verdict :=
  if df.cols.contains "client_age_range" ∧ availIn df physical_cols ≠ [] ∧
      availIn df psycho_cols ≠ [] then
    some
      (if optLt (older_physical df) (younger_physical df) &&
          optLt (younger_psycho df) (older_psycho df) then H1Verdict.fullySupported
        else if optLt (older_physical df) (younger_physical df) then H1Verdict.physicalOnly
        else if optLt (younger_psycho df) (older_psycho df) then H1Verdict.psychoOnly
        else H1Verdict.notSupported)
  else none

/-- Mean physical percentage (× 100) of one age bracket, `none` when the
bracket has no kept rows — the claim's "per-bracket physical_percent mean". -/
def bracketPhysMean (df : Frame) (b : String) : Option ℚ :=
  if (h1Brackets df).contains b then
    some (qMean ((bracketRows df b).map
      (fun r => rowGroupPercent r (availIn df physical_cols))) * 100)
  else none

/-- Mean psychosocial percentage (× 100) of one age bracket, `none` when the
bracket has no kept rows. -/
def bracketPsychoMean (df : Frame) (b : String) : Option ℚ :=
  if (h1Brackets df).contains b then
    some (qMean ((bracketRows df b).map
      (fun r => rowGroupPercent r (availIn df psycho_cols))) * 100)
  else none

theorem qMean_perm {l1 l2 : List ℚ} (h : l1.Perm l2) : qMean l1 = qMean l2 := by
  unfold qMean
  rw [h.sum_eq, h.length_eq]

theorem meanOpt_perm {l1 l2 : List ℚ} (h : l1.Perm l2) : meanOpt l1 = meanOpt l2 := by
  unfold meanOpt
  rw [qMean_perm h]
  have he : l1.isEmpty = l2.isEmpty := by
    cases l1 <;> cases l2 <;> simp_all
  rw [he]

theorem filterMap_bracketPhys (df : Frame) (l : List String) :
    l.filterMap (bracketPhysMean df)
      = (l.filter (fun b => (h1Brackets df).contains b)).map
          (fun b => qMean ((bracketRows df b).map
            (fun r => rowGroupPercent r (availIn df physical_cols))) * 100) := by
  induction l with
  | nil => rfl
  | cons a t ih =>
    by_cases h : a ∈ h1Brackets df <;>
      simp [List.filterMap_cons, List.filter_cons, bracketPhysMean, h, ih]

theorem filterMap_bracketPsycho (df : Frame) (l : List String) :
    l.filterMap (bracketPsychoMean df)
      = (l.filter (fun b => (h1Brackets df).contains b)).map
          (fun b => qMean ((bracketRows df b).map
            (fun r => rowGroupPercent r (availIn df psycho_cols))) * 100) := by
  induction l with
  | nil => rfl
  | cons a t ih =>
    by_cases h : a ∈ h1Brackets df <;>
      simp [List.filterMap_cons, List.filter_cons, bracketPsychoMean, h, ih]

theorem selMean_eq (df : Frame) (sel : List String) (hsel : sel.Nodup)
    (f : String × ℚ × ℚ → ℚ) :
    selMean df sel f
      = meanOpt ((sel.filter (fun b => (h1Brackets df).contains b)).map
          (fun b => f (h1Entry df b))) := by
  unfold selMean ageActivityPref
  rw [List.filter_map, List.map_map]
  apply meanOpt_perm
  apply List.Perm.map
  apply (List.perm_ext_iff_of_nodup ((List.nodup_dedup _).filter _) (hsel.filter _)).mpr
  intro b
  have hcm : ∀ (l : List String) (a : String), l.contains a = true ↔ a ∈ l :=
    fun l a => List.elem_iff
  constructor
  · intro hb
    rcases List.mem_filter.mp hb with ⟨hmem, hp⟩
    have : b ∈ sel := (hcm _ _).mp hp
    exact List.mem_filter.mpr ⟨this, (hcm _ _).mpr hmem⟩
  · intro hb
    rcases List.mem_filter.mp hb with ⟨hmem, hp⟩
    exact List.mem_filter.mpr ⟨(hcm _ _).mp hp, (hcm _ _).mpr hmem⟩

/-- Claim C6.  The H1 evaluator derives `younger_physical` as the mean of the
per-bracket physical_percent means over (the present ones among) the two
youngest brackets 18-54 and 55-69, `older_physical` over the two oldest
brackets 70-85 and 85+, analogously for the psychosocial column — rows with
bracket 'unknown' excluded throughout — and, whenever the schema guards let it
run, emits: fully supported iff younger_physical > older_physical and
older_psycho > younger_psycho; the physical-leg partial verdict iff only the
first holds; the psychosocial-leg partial verdict iff only the second holds;
and not supported iff neither holds. -/
theorem h1_evaluator_spec :
    (∀ df, younger_physical df = meanOpt (youngRange.filterMap (bracketPhysMean df)) ∧
      older_physical df = meanOpt (oldRange.filterMap (bracketPhysMean df)) ∧
      younger_psycho df = meanOpt (youngRange.filterMap (bracketPsychoMean df)) ∧
      older_psycho df = meanOpt (oldRange.filterMap (bracketPsychoMean df))) ∧
    (∀ df v, h1Verdict df = some v →
      ((v = H1Verdict.fullySupported ↔
          optLt (older_physical df) (younger_physical df) = true ∧
            optLt (younger_psycho df) (older_psycho df) = true) ∧
        (v = H1Verdict.physicalOnly ↔
          optLt (older_physical df) (younger_physical df) = true ∧
            optLt (younger_psycho df) (older_psycho df) = false) ∧
        (v = H1Verdict.psychoOnly ↔
          optLt (older_physical df) (younger_physical df) = false ∧
            optLt (younger_psycho df) (older_psycho df) = true) ∧
        (v = H1Verdict.notSupported ↔
          optLt (older_physical df) (younger_physical df) = false ∧
            optLt (younger_psycho df) (older_psycho df) = false))) := by
  constructor
  · intro df
    have hy : youngRange.Nodup := by decide
    have ho : oldRange.Nodup := by decide
    refine ⟨?_, ?_, ?_, ?_⟩
    · rw [younger_physical, selMean_eq df youngRange hy, filterMap_bracketPhys]
      rfl
    · rw [older_physical, selMean_eq df oldRange ho, filterMap_bracketPhys]
      rfl
    · rw [younger_psycho, selMean_eq df youngRange hy, filterMap_bracketPsycho]
      rfl
    · rw [older_psycho, selMean_eq df oldRange ho, filterMap_bracketPsycho]
      rfl
  · intro df v h
    unfold h1Verdict at h
    by_cases hg : (df.cols.contains "client_age_range" = true ∧
        availIn df physical_cols ≠ [] ∧ availIn df psycho_cols ≠ [])
    · rw [if_pos hg] at h
      injection h with h
      subst h
      cases hA : optLt (older_physical df) (younger_physical df) <;>
        cases hB : optLt (younger_psycho df) (older_psycho df) <;>
          simp [hA, hB]
    · rw [if_neg hg] at h
      exact absurd h (by simp)


/-- Younger witness respondent for C6: 18-54, only physical activities. -/
def rowY : Row :=
  { blankRow with
      ageRange := some "18-54"
      ind := [("Physical rehabilitation", 1), ("Physical activities", 1),
        ("Social events", 0), ("Psychological support (group)", 0),
        ("Psychological support (individual)", 0)] }

/-- Older witness respondent for C6: 70-85, only psychosocial activities. -/
def rowO : Row :=
  { blankRow with
      ageRange := some "70-85"
      ind := [("Physical rehabilitation", 0), ("Physical activities", 0),
        ("Social events", 1), ("Psychological support (group)", 1),
        ("Psychological support (individual)", 1)] }

/-- Witness frame for C6: full H1 schema with the two respondents above. -/
def dfH1 : Frame :=
  ⟨["client_age_range", "Physical rehabilitation", "Physical activities",
      "Social events", "Psychological support (group)",
      "Psychological support (individual)"],
    [rowY, rowO]⟩

/-- Witness for C6: on the concrete frame the schema guards pass, the group
means evaluate to 100/0 (younger) and 0/100 (older), the verdict is fully
supported, and the claim's characterization applied there confirms both
comparisons hold. -/
theorem h1_evaluator_spec_witness :
    h1Verdict dfH1 = some H1Verdict.fullySupported ∧
      (H1Verdict.fullySupported = H1Verdict.fullySupported ↔
        optLt (older_physical dfH1) (younger_physical dfH1) = true ∧
          optLt (younger_psycho dfH1) (older_psycho dfH1) = true) := by
  have hb : h1Brackets dfH1 = ["18-54", "70-85"] := by decide
  have hr1 : bracketRows dfH1 "18-54" = [rowY] := by decide
  have hr2 : bracketRows dfH1 "70-85" = [rowO] := by decide
  have hAv1 : availIn dfH1 physical_cols = physical_cols := by decide
  have hAv2 : availIn dfH1 psycho_cols = psycho_cols := by decide
  have hgp1 : rowGroupPercent rowY physical_cols = 1 := by
    simp [rowGroupPercent, physical_cols, rowY, blankRow, Row.indVal]
  have hgp2 : rowGroupPercent rowY psycho_cols = 0 := by
    simp [rowGroupPercent, psycho_cols, rowY, blankRow, Row.indVal]
  have hgp3 : rowGroupPercent rowO physical_cols = 0 := by
    simp [rowGroupPercent, physical_cols, rowO, blankRow, Row.indVal]
  have hgp4 : rowGroupPercent rowO psycho_cols = 1 := by
    simp [rowGroupPercent, psycho_cols, rowO, blankRow, Row.indVal]
    norm_num
  have he1 : h1Entry dfH1 "18-54" = ("18-54", 100, 0) := by
    simp only [h1Entry, hr1, hAv1, hAv2, List.map_cons, List.map_nil,
      hgp1, hgp2]
    norm_num [qMean]
  have he2 : h1Entry dfH1 "70-85" = ("70-85", 0, 100) := by
    simp only [h1Entry, hr2, hAv1, hAv2, List.map_cons, List.map_nil,
      hgp3, hgp4]
    norm_num [qMean]
  have hap : ageActivityPref dfH1 = [("18-54", 100, 0), ("70-85", 0, 100)] := by
    rw [ageActivityPref, hb]
    simp only [List.map_cons, List.map_nil, he1, he2]
  have ey1 : younger_physical dfH1 = some 100 := by
    rw [younger_physical, selMean, hap]
    simp [meanOpt, qMean, youngRange]
  have ey2 : older_physical dfH1 = some 0 := by
    rw [older_physical, selMean, hap]
    simp [meanOpt, qMean, oldRange]
  have ey3 : younger_psycho dfH1 = some 0 := by
    rw [younger_psycho, selMean, hap]
    simp [meanOpt, qMean, youngRange]
  have ey4 : older_psycho dfH1 = some 100 := by
    rw [older_psycho, selMean, hap]
    simp [meanOpt, qMean, oldRange]
  have hv : h1Verdict dfH1 = some H1Verdict.fullySupported := by
    rw [h1Verdict, if_pos (by refine ⟨by decide, by decide, by decide⟩)]
    simp only [ey1, ey2, ey3, ey4, optLt]
    norm_num
  exact ⟨hv, (h1_evaluator_spec.2 dfH1 H1Verdict.fullySupported hv).1⟩
